import Mathlib

/-!
Verification of `src/data/preprocessing.py` (column numeric validation).

The repository is a pandas-based diagnostic utility with two functions:
`verificar_columna_numerica` (single-column validation) and
`verificar_multiples_columnas` (batch validation).  We give a shallow
embedding: pandas Series cells become a tagged value type, a DataFrame
becomes an ordered association list of named columns, console printing
becomes an explicit trace of printed strings, and the Python `raise`
becomes `Except`.  The host primitive `float(...)` is modelled by an
executable parser of Python's float-literal syntax.
-/

namespace Preprocessing

/-- A cell value of a pandas Series.

* `null` models any value for which `pd.isnull` is true (`None`, `NaN`).
* `str s` models a Python `str`.
* `num x` models a numeric value (`int`); `float()` always succeeds on it.
  (Underscored literals and float payloads are not distinguished; the
  validation logic only asks whether `float()` succeeds.)
* `other tipo texto` models any other object: `tipo` is
  `type(valor).__name__` and `texto` is `str(valor)`; `float()` raises
  `TypeError` on it. -/
inductive Value where
  | null : Value
  | str (s : String) : Value
  | num (x : Int) : Value
  | other (tipo : String) (texto : String) : Value
deriving DecidableEq, Repr

/-- Model of `pd.isnull(valor)`. -/
def Value.esNulo : Value → Bool
  | .null => true
  | _ => false

/-- Whether the value is a number (`num`). -/
def Value.esNumero : Value → Bool
  | .num _ => true
  | _ => false

/-- Python whitespace, as stripped by `str.strip()` and by `float(...)`. -/
def esEspacio (c : Char) : Bool :=
  c == ' ' || c == '\t' || c == '\n' || c == '\r' || c == '\x0b' || c == '\x0c'

/-- Python `s.strip()`: drop leading and trailing whitespace. -/
def recortar (s : String) : String :=
  String.mk (((s.data.dropWhile esEspacio).reverse.dropWhile esEspacio).reverse)

/-- Model of `if isinstance(valor, str): valor = valor.strip()` — the value
after the conditional strip performed by the scan loop. -/
def Value.limpiar : Value → Value
  | .str s => .str (recortar s)
  | v => v

/-- Model of `str(valor)` as used by the verbose report (nulls never reach it). -/
def Value.texto : Value → String
  | .null => "None"
  | .str s => s
  | .num x => toString x
  | .other _ t => t

/-- Model of `type(valor).__name__` as used by the verbose report. -/
def Value.nombreTipo : Value → String
  | .null => "NoneType"
  | .str _ => "str"
  | .num _ => "int"
  | .other tipo _ => tipo

/-- Consume a maximal run of decimal digits; return how many were consumed
and the rest of the characters. -/
def tomarDigitos : List Char → Nat × List Char
  | [] => (0, [])
  | c :: rest =>
    if c.isDigit then
      let (n, r) := tomarDigitos rest
      (n + 1, r)
    else (0, c :: rest)

/-- Optional exponent part of a Python float literal: empty, or
`e`/`E`, an optional sign, and at least one digit, consuming everything. -/
def parteExponente : List Char → Bool
  | [] => true
  | c :: rest =>
    if c == 'e' || c == 'E' then
      let cuerpo :=
        match rest with
        | s :: t => if s == '+' || s == '-' then t else s :: t
        | [] => []
      let (n, r) := tomarDigitos cuerpo
      decide (0 < n) && r.isEmpty
    else false

/-- Unsigned numeric part of a Python float literal: digits with an optional
point and fractional digits (at least one digit overall), then an optional
exponent. -/
def parteNumerica (cs : List Char) : Bool :=
  let (n1, r1) := tomarDigitos cs
  match r1 with
  | '.' :: r2 =>
    let (n2, r3) := tomarDigitos r2
    decide (0 < n1 + n2) && parteExponente r3
  | _ => decide (0 < n1) && parteExponente r1

/-- Unsigned body of a Python float literal: `inf`, `infinity`, `nan`
(case-insensitive) or a numeric literal. -/
def cuerpoFloat (cs : List Char) : Bool :=
  let bajo := cs.map Char.toLower
  if bajo == "inf".data || bajo == "infinity".data || bajo == "nan".data then true
  else parteNumerica cs

/-- Model of the host primitive `float(s)` on a string: `true` iff the call
succeeds.  Python itself strips surrounding whitespace, then accepts an
optional sign followed by `inf`/`infinity`/`nan` or a numeric literal.
(Digit-group underscores are not modelled.) -/
def pyFloat (s : String) : Bool :=
  match (recortar s).data with
  | '+' :: rest => cuerpoFloat rest
  | '-' :: rest => cuerpoFloat rest
  | cs => cuerpoFloat cs

/-- Whether `float(valor)` succeeds on a cell value: always on numbers, by
parsing on strings, never on `None` (`TypeError`) or other objects. -/
def Value.floatOk : Value → Bool
  | .null => false
  | .str s => pyFloat s
  | .num _ => true
  | .other _ _ => false

/-- A pandas Series: a declared dtype label (`str(serie.dtype)`), the result
of `pd.api.types.is_numeric_dtype`, and the ordered cells.  The index is the
default range index, i.e. the cell's position. -/
structure Column where
  dtype : String
  dtypeNumerico : Bool
  cells : List Value
deriving DecidableEq, Repr

/-- In pandas, a column whose dtype is numeric holds only numbers and nulls.
Our model states this as a well-formedness condition. -/
def Column.BienFormada (col : Column) : Prop :=
  col.dtypeNumerico = true → ∀ v ∈ col.cells, v.esNulo = true ∨ v.esNumero = true

instance (col : Column) : Decidable col.BienFormada := by
  unfold Column.BienFormada
  infer_instance

/-- A DataFrame: an ordered list of named columns. -/
structure DataFrame where
  cols : List (String × Column)
deriving DecidableEq, Repr

/-- Model of `df.columns` (as a list of names). -/
def DataFrame.columns (df : DataFrame) : List String :=
  df.cols.map Prod.fst

/-- Model of `df[columna]`: the first column with the given name.  The source tests
`columna not in df.columns` and then reads `df[columna]`; for an
association list the two operations combine into one lookup
(`lookup = none` exactly when the name is absent, see
`lookup_eq_none_iff_not_mem`). -/
def DataFrame.leer (df : DataFrame) (columna : String) : Option Column :=
  df.cols.lookup columna

/-- The dictionary returned by `verificar_columna_numerica`. -/
structure Resultado where
  es_numerica : Bool
  tipo_dato : String
  valores_no_numericos : List Value
  cantidad_no_numericos : Nat
  indices_no_numericos : List Nat
  total_valores : Nat
  valores_nulos : Nat
  indices_nulos : List Nat
deriving DecidableEq, Repr

/-- Model of `serie.isnull().sum()`. -/
def cuentaNulos (cells : List Value) : Nat :=
  cells.countP Value.esNulo

/-- Model of `serie[serie.isnull()].index.tolist()`. -/
def indicesNulos (cells : List Value) : List Nat :=
  (cells.enum.filter (fun p => p.2.esNulo)).map Prod.fst

/-- The scan loop of `verificar_columna_numerica`: iterate cells from index
`k`, skip nulls, strip strings, attempt `float`; on failure collect the
(stripped) value and its index.  Returns
(`valores_no_numericos`, `indices_no_numericos`). -/
def escanear : List Value → Nat → List Value × List Nat
  | [], _ => ([], [])
  | v :: rest, k =>
    let (vs, is) := escanear rest (k + 1)
    if v.esNulo then (vs, is)
    else if v.limpiar.floatOk then (vs, is)
    else (v.limpiar :: vs, k :: is)

/-- The per-cell failure test of the scan loop, on an (index, value) pair:
the cell is non-null and `float` fails on its stripped form. -/
def noConvertible (p : Nat × Value) : Bool :=
  !p.2.esNulo && !p.2.limpiar.floatOk

/-- Python's `str(...)` of a list of strings, as interpolated into the
missing-column error message: `['a', 'b']`. -/
def cuerpoListaRepr : List String → String
  | [] => ""
  | [n] => "'" ++ n ++ "'"
  | n :: rest => "'" ++ n ++ "', " ++ cuerpoListaRepr rest

/-- Model of `str(list(df.columns))`. -/
def listaRepr (ns : List String) : String :=
  "[" ++ cuerpoListaRepr ns ++ "]"

/-- Python's `str(...)` of a list of ints, used when printing null indices. -/
def listaNatRepr (ns : List Nat) : String :=
  "[" ++ String.intercalate ", " (ns.map toString) ++ "]"

/-- The `ValueError` message raised for a missing column. -/
def mensajeColumnaInexistente (df : DataFrame) (columna : String) : String :=
  "La columna '" ++ columna ++ "' no existe en el DataFrame. " ++
    "Columnas disponibles: " ++ listaRepr df.columns

/-- A run of 60 `=` characters. -/
def raya60 : String := String.mk (List.replicate 60 '=')

/-- A run of 70 `=` characters. -/
def raya70 : String := String.mk (List.replicate 70 '=')

/-- A run of 70 `-` characters. -/
def guiones70 : String := String.mk (List.replicate 70 '-')

/-- Python `f"{s:<w}"`: pad `s` on the right with spaces to width `w`. -/
def rellenar (s : String) (w : Nat) : String :=
  s ++ String.mk (List.replicate (w - s.length) ' ')

/-- Model of `str(val)[:27] + '...' if len(str(val)) > 30 else str(val)`. -/
def truncar (s : String) : String :=
  if s.length > 30 then s.take 27 ++ "..." else s

/-- One row of the verbose non-numeric detail table. -/
def filaDetalle (idx : Nat) (v : Value) : String :=
  rellenar (toString idx) 10 ++ " " ++ rellenar (truncar v.texto) 30 ++ " " ++
    rellenar v.nombreTipo 20

/-- The verbose null-detail block (printed only when nulls exist). -/
def detalleNulos (r : Resultado) : List String :=
  if r.valores_nulos > 0 then
    ["\n" ++ raya70,
     "DETALLE DE VALORES NULOS:",
     raya70,
     "Índices con valores nulos: " ++ listaNatRepr r.indices_nulos,
     raya70]
  else []

/-- Verbose output of the numeric-dtype short-circuit branch. -/
def lineasDtypeNumerico (columna : String) (r : Resultado) : List String :=
  ["✓ La columna '" ++ columna ++ "' es numérica",
   "  - Tipo de dato: " ++ r.tipo_dato,
   "  - Total de valores: " ++ toString r.total_valores,
   "  - Valores nulos: " ++ toString r.valores_nulos]

/-- Verbose output after the per-cell scan. -/
def lineasEscaneo (columna : String) (r : Resultado) : List String :=
  if r.es_numerica then
    ["✓ La columna '" ++ columna ++ "' contiene solo datos numéricos",
     "  - Tipo de dato actual: " ++ r.tipo_dato ++ " (puede convertirse a numérico)",
     "  - Total de valores: " ++ toString r.total_valores,
     "  - Valores nulos: " ++ toString r.valores_nulos] ++
    detalleNulos r
  else
    ["✗ La columna '" ++ columna ++ "' NO es completamente numérica",
     "  - Tipo de dato: " ++ r.tipo_dato,
     "  - Total de valores: " ++ toString r.total_valores,
     "  - Valores nulos: " ++ toString r.valores_nulos,
     "  - Valores no numéricos encontrados: " ++ toString r.cantidad_no_numericos] ++
    detalleNulos r ++
    ["\n" ++ raya70,
     "DETALLE DE VALORES NO NUMÉRICOS:",
     raya70,
     rellenar "Índice" 10 ++ " " ++ rellenar "Valor" 30 ++ " " ++ rellenar "Tipo" 20,
     guiones70] ++
    (r.indices_no_numericos.zip r.valores_no_numericos).map
      (fun p => filaDetalle p.1 p.2) ++
    [raya70]

/-- The dictionary built by `verificar_columna_numerica` for an existing
column: the initial record, then either the numeric-dtype short-circuit
(which touches no cell) or the per-cell scan. -/
def reporteDe (serie : Column) : Resultado :=
  let resultado : Resultado :=
    { es_numerica := false
      tipo_dato := serie.dtype
      valores_no_numericos := []
      cantidad_no_numericos := 0
      indices_no_numericos := []
      total_valores := serie.cells.length
      valores_nulos := cuentaNulos serie.cells
      indices_nulos := indicesNulos serie.cells }
  if serie.dtypeNumerico then
    { resultado with es_numerica := true }
  else
    let valores := (escanear serie.cells 0).1
    let indices := (escanear serie.cells 0).2
    { resultado with
      valores_no_numericos := valores
      cantidad_no_numericos := valores.length
      indices_no_numericos := indices
      es_numerica := valores.length == 0 }

/-- The verbose output of `verificar_columna_numerica` for an existing
column (the branch mirrors the one taken by `reporteDe`). -/
def lineasVerificacion (columna : String) (serie : Column) (r : Resultado) :
    List String :=
  if serie.dtypeNumerico then lineasDtypeNumerico columna r
  else lineasEscaneo columna r

/-- Model of `verificar_columna_numerica(df, columna, verbose)`.  The returned pair is
(the Python return value or the raised error, the list of strings passed to
`print`).  The source computes the result dict and the printed lines in the
same two branches; the embedding factors them into `reporteDe` and
`lineasVerificacion`, branch for branch. -/
def verificar_columna_numerica (df : DataFrame) (columna : String)
    (verbose : Bool) : Except String Resultado × List String :=
  match df.leer columna with
  | none => (.error (mensajeColumnaInexistente df columna), [])
  | some serie =>
    let resultado := reporteDe serie
    (.ok resultado,
     if verbose then lineasVerificacion columna serie resultado else [])

/-- Python dict assignment `resultados[col] = resultado` on an
insertion-ordered association list: an existing key keeps its position and
gets the new value; a new key is appended. -/
def dictInsert : List (String × Resultado) → String → Resultado →
    List (String × Resultado)
  | [], c, r => [(c, r)]
  | (k, v) :: rest, c, r =>
    if k == c then (k, r) :: rest else (k, v) :: dictInsert rest c r

/-- The final verbose summary of `verificar_multiples_columnas`. -/
def lineasResumen (resultados : List (String × Resultado)) : List String :=
  let numericas := resultados.filter (fun p => p.2.es_numerica)
  let no_numericas := resultados.filter (fun p => !p.2.es_numerica)
  ["\n" ++ raya60,
   "RESUMEN",
   raya60,
   "\n✓ Columnas numéricas (" ++ toString numericas.length ++ "):"] ++
  numericas.map (fun p => "  - " ++ p.1) ++
  (if no_numericas.isEmpty then []
   else
     ["\n✗ Columnas NO numéricas (" ++ toString no_numericas.length ++ "):"] ++
     no_numericas.map
       (fun p => "  - " ++ p.1 ++ " (" ++ toString p.2.cantidad_no_numericos ++
         " valores problemáticos)"))

/-- The `for col in columnas` loop of `verificar_multiples_columnas`:
validates each column in turn, inserting into the accumulated dict; an
error aborts the loop and propagates.  The trace collects the per-column
headers and the single-column traces up to the point of the error. -/
def buclePorColumnas (df : DataFrame) (verbose : Bool) :
    List String → List (String × Resultado) →
    Except String (List (String × Resultado)) × List String
  | [], acc => (.ok acc, [])
  | c :: rest, acc =>
    let encabezado := if verbose then ["\n--- Columna: " ++ c ++ " ---"] else []
    match verificar_columna_numerica df c verbose with
    | (.error e, tr) => (.error e, encabezado ++ tr)
    | (.ok r, tr) =>
      let par := buclePorColumnas df verbose rest (dictInsert acc c r)
      (par.1, encabezado ++ tr ++ par.2)

/-- Model of `verificar_multiples_columnas(df, columnas, verbose)`.  Here `columnas = none`
models the Python default `columnas=None`, which selects all of the
DataFrame's columns.  Returns (the Python return value or the propagated
error, the printed trace). -/
def verificar_multiples_columnas (df : DataFrame)
    (columnas : Option (List String)) (verbose : Bool) :
    Except String (List (String × Resultado)) × List String :=
  let cols := match columnas with
    | none => df.columns
    | some cs => cs
  let cabecera :=
    if verbose then [raya60, "VERIFICACIÓN DE COLUMNAS NUMÉRICAS", raya60 ++ "\n"]
    else []
  match buclePorColumnas df verbose cols [] with
  | (.error e, tr) => (.error e, cabecera ++ tr)
  | (.ok resultados, tr) =>
    (.ok resultados,
     cabecera ++ tr ++ (if verbose then lineasResumen resultados else []))

/-- The single-column report of a named column, as a total function: for a
name present in the table (the only case the theorems use) it is the report
`verificar_columna_numerica` returns; for an absent name it falls back to
the report of an empty column. -/
def reporteColumna (df : DataFrame) (c : String) : Resultado :=
  match df.leer c with
  | some serie => reporteDe serie
  | none => reporteDe ⟨"", false, []⟩

/-- State-passing form of the single-column validator, for the frame
property: the source assigns only to local variables (`resultado`,
`valores_no_numericos`, `indices_no_numericos`, loop variables) and never to
`df`, any of its columns, or any cell, so the embedding threads the table
through unchanged. -/
def verificarColumnaEstado (df : DataFrame) (columna : String)
    (verbose : Bool) : (Except String Resultado × List String) × DataFrame :=
  (verificar_columna_numerica df columna verbose, df)

/-- State-passing form of the batch validator; the loop only calls the
single-column validator and writes to the local dict `resultados`, so the
table is threaded through unchanged. -/
def verificarMultiplesEstado (df : DataFrame)
    (columnas : Option (List String)) (verbose : Bool) :
    (Except String (List (String × Resultado)) × List String) × DataFrame :=
  (verificar_multiples_columnas df columnas verbose, df)

/-! ### Supporting lemmas -/

theorem lookup_eq_none_iff_not_mem (l : List (String × Column)) (c : String) :
    l.lookup c = none ↔ c ∉ l.map Prod.fst := by
  induction l with
  | nil => simp [List.lookup]
  | cons p rest ih =>
    obtain ⟨k, col⟩ := p
    by_cases h : c = k
    · subst h
      simp [List.lookup]
    · simpa [List.lookup, beq_false_of_ne h, h] using ih

theorem leer_eq_none_iff (df : DataFrame) (c : String) :
    df.leer c = none ↔ c ∉ df.columns :=
  lookup_eq_none_iff_not_mem df.cols c

theorem exists_leer_of_mem {df : DataFrame} {c : String}
    (h : c ∈ df.columns) : ∃ col, df.leer c = some col := by
  rcases hl : df.leer c with _ | col
  · exact absurd ((leer_eq_none_iff df c).mp hl) (not_not_intro h)
  · exact ⟨col, rfl⟩

theorem verificar_eq_of_leer (df : DataFrame) (c : String) (verbose : Bool)
    (col : Column) (h : df.leer c = some col) :
    verificar_columna_numerica df c verbose =
      (Except.ok (reporteDe col),
       if verbose then lineasVerificacion c col (reporteDe col) else []) := by
  simp [verificar_columna_numerica, h]

theorem verificar_eq_of_leer_none (df : DataFrame) (c : String) (verbose : Bool)
    (h : df.leer c = none) :
    verificar_columna_numerica df c verbose =
      (Except.error (mensajeColumnaInexistente df c), []) := by
  simp [verificar_columna_numerica, h]

/-- Closed form of the scan loop: filter the enumerated cells by the failure
test, then project values (stripped) and indices. -/
theorem escanear_eq (cells : List Value) (k : Nat) :
    escanear cells k =
      (((List.enumFrom k cells).filter noConvertible).map (fun p => p.2.limpiar),
       ((List.enumFrom k cells).filter noConvertible).map Prod.fst) := by
  induction cells generalizing k with
  | nil => simp [escanear]
  | cons v rest ih =>
    rcases hn : v.esNulo with _ | _
    · rcases hf : v.limpiar.floatOk with _ | _
      · simp [escanear, hn, hf, ih (k + 1), List.enumFrom, List.filter,
          noConvertible]
      · simp [escanear, hn, hf, ih (k + 1), List.enumFrom, List.filter,
          noConvertible]
    · simp [escanear, hn, ih (k + 1), List.enumFrom, List.filter, noConvertible]

theorem reporteDe_dtype_numerico (serie : Column)
    (h : serie.dtypeNumerico = true) :
    reporteDe serie =
      { es_numerica := true
        tipo_dato := serie.dtype
        valores_no_numericos := []
        cantidad_no_numericos := 0
        indices_no_numericos := []
        total_valores := serie.cells.length
        valores_nulos := cuentaNulos serie.cells
        indices_nulos := indicesNulos serie.cells } := by
  simp [reporteDe, h]

theorem reporteDe_dtype_no_numerico (serie : Column)
    (h : serie.dtypeNumerico = false) :
    reporteDe serie =
      { es_numerica := ((escanear serie.cells 0).1.length == 0)
        tipo_dato := serie.dtype
        valores_no_numericos := (escanear serie.cells 0).1
        cantidad_no_numericos := (escanear serie.cells 0).1.length
        indices_no_numericos := (escanear serie.cells 0).2
        total_valores := serie.cells.length
        valores_nulos := cuentaNulos serie.cells
        indices_nulos := indicesNulos serie.cells } := by
  simp [reporteDe, h]

theorem mem_cells_iff_mem_enum (cells : List Value) (x : Value) :
    x ∈ cells ↔ ∃ i, (i, x) ∈ List.enumFrom 0 cells := by
  constructor
  · intro hx
    obtain ⟨i, hi, hg⟩ := List.mem_iff_getElem.mp hx
    refine ⟨i, ?_⟩
    simp only [List.mk_mem_enumFrom_iff_le_and_getElem?_sub, Nat.zero_le,
      Nat.sub_zero, true_and]
    rw [List.getElem?_eq_getElem hi, hg]
  · rintro ⟨i, hi⟩
    have hmap := List.enumFrom_map_snd 0 cells
    have : (i, x).2 ∈ (List.enumFrom 0 cells).map Prod.snd :=
      List.mem_map_of_mem Prod.snd hi
    rwa [hmap] at this

/-- The scan finds nothing exactly when every non-null cell converts. -/
theorem escanear_vacio_iff (cells : List Value) :
    (escanear cells 0).1.length = 0 ↔
      ∀ x ∈ cells, x.esNulo = false → x.limpiar.floatOk = true := by
  rw [escanear_eq]
  simp only [List.length_map, List.length_eq_zero, List.filter_eq_nil_iff]
  constructor
  · intro h x hx hnull
    obtain ⟨i, hi⟩ := (mem_cells_iff_mem_enum cells x).mp hx
    have := h _ hi
    simpa [noConvertible, hnull] using this
  · intro h p hp
    have hx : p.2 ∈ cells := (mem_cells_iff_mem_enum cells p.2).mpr ⟨p.1, hp⟩
    simp only [noConvertible, Bool.and_eq_true, Bool.not_eq_true',
      not_and]
    intro hnn
    simpa using h p.2 hx hnn

/-! ### Claims -/

/-- C1: for every table and every column name present in it (under the
pandas well-formedness of numeric dtype columns), the returned report has
`es_numerica = true` iff every non-null cell parses as a float after the
conditional strip — in particular a whitespace-padded numeric string such
as `" 42 "` counts as numeric (see the witness). -/
theorem claim1_es_numerica_iff (df : DataFrame) (c : String) (col : Column)
    (verbose : Bool) (r : Resultado) (hwf : col.BienFormada)
    (hcol : df.leer c = some col)
    (hr : (verificar_columna_numerica df c verbose).fst = Except.ok r) :
    r.es_numerica = true ↔
      ∀ x ∈ col.cells, x.esNulo = false → x.limpiar.floatOk = true := by
  rw [verificar_eq_of_leer df c verbose col hcol] at hr
  simp only [Except.ok.injEq] at hr
  subst hr
  rcases hd : col.dtypeNumerico with _ | _
  · rw [reporteDe_dtype_no_numerico col hd]
    simp only [beq_iff_eq]
    exact escanear_vacio_iff col.cells
  · rw [reporteDe_dtype_numerico col hd]
    simp only [true_iff]
    intro x hx hnull
    rcases hwf hd x hx with hnl | hnum
    · rw [hnull] at hnl
      cases hnl
    · cases x <;> simp_all [Value.esNumero, Value.limpiar, Value.floatOk]

def df1 : DataFrame :=
  ⟨[("a", ⟨"object", false, [.str "1", .str " 42 ", .null]⟩)]⟩

def col1 : Column := ⟨"object", false, [.str "1", .str " 42 ", .null]⟩

def r1 : Resultado :=
  { es_numerica := true
    tipo_dato := "object"
    valores_no_numericos := []
    cantidad_no_numericos := 0
    indices_no_numericos := []
    total_valores := 3
    valores_nulos := 1
    indices_nulos := [2] }

/-- C1 witness: a text column `["1", " 42 ", null]` — the padded `" 42 "`
counts as numeric, so the report says `es_numerica = true`. -/
theorem claim1_witness :
    df1.leer "a" = some col1
    ∧ (verificar_columna_numerica df1 "a" false).fst = Except.ok r1
    ∧ r1.es_numerica = true :=
  ⟨rfl, rfl,
   (claim1_es_numerica_iff df1 "a" col1 false r1 (by decide) rfl rfl).mpr
     (by decide)⟩

/-- Every member of a list of names occurs inside its Python repr. -/
theorem mem_cuerpoListaRepr (ns : List String) :
    ∀ n ∈ ns, ∃ p q, cuerpoListaRepr ns = p ++ n ++ q := by
  induction ns with
  | nil => simp
  | cons m rest ih =>
    intro n hn
    rcases List.mem_cons.mp hn with h | h
    · subst h
      cases rest with
      | nil => exact ⟨"'", "'", rfl⟩
      | cons r1 rtail =>
        exact ⟨"'", "', " ++ cuerpoListaRepr (r1 :: rtail),
          String.append_assoc _ _ _⟩
    · cases rest with
      | nil => simp at h
      | cons r1 rtail =>
        obtain ⟨p, q, hpq⟩ := ih n h
        refine ⟨"'" ++ m ++ "', " ++ p, q, ?_⟩
        show "'" ++ m ++ "', " ++ cuerpoListaRepr (r1 :: rtail) = _
        rw [hpq]
        simp only [String.append_assoc]

theorem mem_mensaje (df : DataFrame) (c : String) :
    ∀ n ∈ df.columns, ∃ p q, mensajeColumnaInexistente df c = p ++ n ++ q := by
  intro n hn
  obtain ⟨p, q, hpq⟩ := mem_cuerpoListaRepr df.columns n hn
  refine ⟨"La columna '" ++ c ++ "' no existe en el DataFrame. " ++
    "Columnas disponibles: " ++ ("[" ++ p), q ++ "]", ?_⟩
  rw [mensajeColumnaInexistente, listaRepr, hpq]
  simp only [String.append_assoc]

/-- C2: the validator fails exactly when the requested column name is absent
from the table; the error message is the missing-column message, and every
actual column name of the table occurs inside it.  When the column is
present, the call returns a result (so nulls and non-numeric values are
only ever reported in the result structure, never raised). -/
theorem claim2_error_exactamente_si_falta (df : DataFrame) (c : String)
    (verbose : Bool) :
    ((∃ e, (verificar_columna_numerica df c verbose).fst = Except.error e) ↔
      c ∉ df.columns)
    ∧ ∀ e, (verificar_columna_numerica df c verbose).fst = Except.error e →
        e = mensajeColumnaInexistente df c
        ∧ ∀ n ∈ df.columns, ∃ p q, e = p ++ n ++ q := by
  constructor
  · constructor
    · rintro ⟨e, he⟩
      rcases hl : df.leer c with _ | col
      · exact (leer_eq_none_iff df c).mp hl
      · rw [verificar_eq_of_leer df c verbose col hl] at he
        cases he
    · intro h
      obtain hl := (leer_eq_none_iff df c).mpr h
      rw [verificar_eq_of_leer_none df c verbose hl]
      exact ⟨mensajeColumnaInexistente df c, rfl⟩
  · intro e he
    rcases hl : df.leer c with _ | col
    · rw [verificar_eq_of_leer_none df c verbose hl] at he
      cases he
      exact ⟨rfl, mem_mensaje df c⟩
    · rw [verificar_eq_of_leer df c verbose col hl] at he
      cases he

def df2 : DataFrame :=
  ⟨[("a", ⟨"int64", true, [.num 1]⟩), ("b", ⟨"object", false, [.str "x"]⟩)]⟩

/-- C2 witness: requesting `"z"` from a table with columns `a`, `b` fails
with the missing-column message, and each real column name occurs in it. -/
theorem claim2_witness :
    ("z" ∉ df2.columns)
    ∧ (verificar_columna_numerica df2 "z" false).fst =
        Except.error (mensajeColumnaInexistente df2 "z")
    ∧ ∃ p q, mensajeColumnaInexistente df2 "z" = p ++ "a" ++ q := by
  have h1 : (verificar_columna_numerica df2 "z" false).fst =
      Except.error (mensajeColumnaInexistente df2 "z") := rfl
  refine ⟨by decide, h1, ?_⟩
  exact ((claim2_error_exactamente_si_falta df2 "z" false).2 _ h1).2 "a"
    (by decide)

/-- An index collected by the scan points at a non-null cell. -/
theorem mem_indices_escanear {cells : List Value} {i : Nat}
    (h : i ∈ (escanear cells 0).2) :
    ∃ hi : i < cells.length, (cells.get ⟨i, hi⟩).esNulo = false := by
  rw [escanear_eq] at h
  obtain ⟨p, hp, hpi⟩ := List.mem_map.mp h
  obtain ⟨hpe, hpc⟩ := List.mem_filter.mp hp
  obtain ⟨j, x⟩ := p
  subst hpi
  have hm := (List.mk_mem_enumFrom_iff_le_and_getElem?_sub.mp hpe).2
  simp only [Nat.sub_zero] at hm
  obtain ⟨hj, hx⟩ := List.getElem?_eq_some.mp hm
  refine ⟨hj, ?_⟩
  rw [List.get_eq_getElem, hx]
  simp only [noConvertible, Bool.and_eq_true, Bool.not_eq_true'] at hpc
  exact hpc.1

/-- C3: every returned report satisfies the structural invariants: the
non-numeric count equals the length of the non-numeric value list,
`es_numerica` is exactly "the count is zero", and every recorded
non-numeric index points at a non-null cell — in either dtype branch,
whatever the nulls. -/
theorem claim3_invariantes (df : DataFrame) (c : String) (verbose : Bool)
    (col : Column) (r : Resultado) (hcol : df.leer c = some col)
    (hr : (verificar_columna_numerica df c verbose).fst = Except.ok r) :
    r.cantidad_no_numericos = r.valores_no_numericos.length
    ∧ r.es_numerica = (r.cantidad_no_numericos == 0)
    ∧ ∀ i ∈ r.indices_no_numericos,
        ∃ hi : i < col.cells.length, (col.cells.get ⟨i, hi⟩).esNulo = false := by
  rw [verificar_eq_of_leer df c verbose col hcol] at hr
  simp only [Except.ok.injEq] at hr
  subst hr
  rcases hd : col.dtypeNumerico with _ | _
  · rw [reporteDe_dtype_no_numerico col hd]
    refine ⟨rfl, rfl, ?_⟩
    intro i hi
    exact mem_indices_escanear hi
  · rw [reporteDe_dtype_numerico col hd]
    exact ⟨rfl, rfl, by simp⟩

def df3 : DataFrame :=
  ⟨[("a", ⟨"object", false, [.str "1", .str "abc", .null, .str "3.5"]⟩)]⟩

def col3 : Column := ⟨"object", false, [.str "1", .str "abc", .null, .str "3.5"]⟩

def r3 : Resultado :=
  { es_numerica := false
    tipo_dato := "object"
    valores_no_numericos := [.str "abc"]
    cantidad_no_numericos := 1
    indices_no_numericos := [1]
    total_valores := 4
    valores_nulos := 1
    indices_nulos := [2] }

/-- C3 witness: the invariants instantiated at the column
`["1", "abc", null, "3.5"]`. -/
theorem claim3_witness :
    r3.cantidad_no_numericos = r3.valores_no_numericos.length
    ∧ r3.es_numerica = (r3.cantidad_no_numericos == 0)
    ∧ ∀ i ∈ r3.indices_no_numericos,
        ∃ hi : i < col3.cells.length, (col3.cells.get ⟨i, hi⟩).esNulo = false :=
  claim3_invariantes df3 "a" false col3 r3 rfl rfl

def df4 : DataFrame := ⟨[("a", ⟨"object", false, [.str " abc "]⟩)]⟩

def r4 : Resultado :=
  { es_numerica := false
    tipo_dato := "object"
    valores_no_numericos := [.str "abc"]
    cantidad_no_numericos := 1
    indices_no_numericos := [0]
    total_valores := 1
    valores_nulos := 0
    indices_nulos := [] }

/-- C4 counterexample: the cell `" abc "` is non-null and fails the numeric
parse, yet the report's non-numeric list holds only the stripped `"abc"` —
the original untrimmed value is not in it.  (The scan rebinds the loop
variable to the stripped string before the parse attempt and appends that.) -/
theorem claim4_contraejemplo :
    (verificar_columna_numerica df4 "a" false).fst = Except.ok r4
    ∧ df4.leer "a" = some ⟨"object", false, [Value.str " abc "]⟩
    ∧ (Value.str " abc ").esNulo = false
    ∧ (Value.str " abc ").limpiar.floatOk = false
    ∧ r4.valores_no_numericos = [Value.str "abc"]
    ∧ Value.str " abc " ∉ r4.valores_no_numericos :=
  ⟨rfl, rfl, rfl, rfl, rfl, by decide⟩

/-- C4 as amended: when a non-null cell fails the numeric parse, the
validator appends the cell's value as tested — stripped of surrounding
whitespace when textual, the original value otherwise — together with its
index, for every such failing cell. -/
theorem claim4_valor_recortado (df : DataFrame) (c : String) (verbose : Bool)
    (col : Column) (r : Resultado) (hcol : df.leer c = some col)
    (hd : col.dtypeNumerico = false)
    (hr : (verificar_columna_numerica df c verbose).fst = Except.ok r) :
    ∀ i x, (i, x) ∈ List.enumFrom 0 col.cells → x.esNulo = false →
      x.limpiar.floatOk = false →
      (i, x.limpiar) ∈ r.indices_no_numericos.zip r.valores_no_numericos := by
  rw [verificar_eq_of_leer df c verbose col hcol] at hr
  simp only [Except.ok.injEq] at hr
  subst hr
  rw [reporteDe_dtype_no_numerico col hd]
  intro i x hienum hnull hfl
  simp only [escanear_eq, List.zip_map']
  refine List.mem_map.mpr ⟨(i, x), ?_, rfl⟩
  exact List.mem_filter.mpr ⟨hienum, by simp [noConvertible, hnull, hfl]⟩

/-- C4 witness: at `df4`, the failing cell `" abc "` at index 0 yields the
pair (0, stripped value) in the report's zipped index/value lists. -/
theorem claim4_witness :
    (0, Value.str "abc") ∈
      r4.indices_no_numericos.zip r4.valores_no_numericos :=
  claim4_valor_recortado df4 "a" false ⟨"object", false, [.str " abc "]⟩ r4
    rfl rfl rfl 0 (Value.str " abc ") (by decide) rfl rfl

/-- C5: for a column whose declared dtype is numeric the validator
short-circuits: the report has `es_numerica = true`, an empty non-numeric
list and zero count — with no reference to any per-cell parse — while the
total count, null count and null indices are still populated from the
cells. -/
theorem claim5_atajo_dtype_numerico (df : DataFrame) (c : String)
    (col : Column) (verbose : Bool) (hcol : df.leer c = some col)
    (hnum : col.dtypeNumerico = true) :
    (verificar_columna_numerica df c verbose).fst = Except.ok
      { es_numerica := true
        tipo_dato := col.dtype
        valores_no_numericos := []
        cantidad_no_numericos := 0
        indices_no_numericos := []
        total_valores := col.cells.length
        valores_nulos := cuentaNulos col.cells
        indices_nulos := indicesNulos col.cells } := by
  rw [verificar_eq_of_leer df c verbose col hcol]
  rw [reporteDe_dtype_numerico col hnum]

def df5 : DataFrame := ⟨[("c", ⟨"float64", true, [.num 1, .null]⟩)]⟩

def r5 : Resultado :=
  { es_numerica := true
    tipo_dato := "float64"
    valores_no_numericos := []
    cantidad_no_numericos := 0
    indices_no_numericos := []
    total_valores := 2
    valores_nulos := 1
    indices_nulos := [1] }

/-- C5 witness: a native floating column holding a `NaN` reports
`es_numerica = true` with that `NaN` counted (and indexed) as null. -/
theorem claim5_witness :
    (verificar_columna_numerica df5 "c" true).fst = Except.ok r5
    ∧ r5.es_numerica = true ∧ r5.valores_nulos = 1 :=
  ⟨claim5_atajo_dtype_numerico df5 "c" ⟨"float64", true, [.num 1, .null]⟩
      true rfl rfl,
   rfl, rfl⟩

/-- The Python-return part of the single-column validator, as one equation. -/
theorem verificar_fst (df : DataFrame) (c : String) (verbose : Bool) :
    (verificar_columna_numerica df c verbose).fst =
      match df.leer c with
      | none => Except.error (mensajeColumnaInexistente df c)
      | some serie => Except.ok (reporteDe serie) := by
  rcases h : df.leer c with _ | col
  · rw [verificar_eq_of_leer_none df c verbose h]
  · rw [verificar_eq_of_leer df c verbose col h]

/-- The Python-return part of one step of the batch loop. -/
theorem bucle_fst (df : DataFrame) (verbose : Bool) (c : String)
    (rest : List String) (acc : List (String × Resultado)) :
    (buclePorColumnas df verbose (c :: rest) acc).fst =
      match (verificar_columna_numerica df c verbose).fst with
      | .error e => .error e
      | .ok r => (buclePorColumnas df verbose rest (dictInsert acc c r)).fst := by
  rcases h : verificar_columna_numerica df c verbose with ⟨res, tr⟩
  cases res <;> simp [buclePorColumnas, h]

theorem bucle_error (df : DataFrame) (verbose : Bool) :
    ∀ (cs : List String) (acc : List (String × Resultado)) (c : String),
      c ∈ cs → c ∉ df.columns →
      ∃ e, (buclePorColumnas df verbose cs acc).fst = Except.error e := by
  intro cs
  induction cs with
  | nil => intro acc c hc; cases hc
  | cons d rest ih =>
    intro acc c hc habs
    rw [bucle_fst]
    rcases hl : df.leer d with _ | col
    · have h1 : (verificar_columna_numerica df d verbose).fst =
          Except.error (mensajeColumnaInexistente df d) := by
        rw [verificar_eq_of_leer_none df d verbose hl]
      rw [h1]
      exact ⟨mensajeColumnaInexistente df d, rfl⟩
    · have h1 : (verificar_columna_numerica df d verbose).fst =
          Except.ok (reporteDe col) := by
        rw [verificar_eq_of_leer df d verbose col hl]
      rw [h1]
      have hc' : c ∈ rest := by
        rcases List.mem_cons.mp hc with h | h
        · subst h
          have hn := (leer_eq_none_iff df c).mpr habs
          rw [hl] at hn
          cases hn
        · exact h
      exact ih _ c hc' habs

/-- C6: if any requested name is absent from the table, the batch validator
propagates the error and returns no mapping at all. -/
theorem claim6_columna_faltante_aborta (df : DataFrame) (cs : List String)
    (verbose : Bool) (c : String) (hc : c ∈ cs) (habs : c ∉ df.columns) :
    ∃ e, (verificar_multiples_columnas df (some cs) verbose).fst =
      Except.error e := by
  obtain ⟨e, he⟩ := bucle_error df verbose cs [] c hc habs
  refine ⟨e, ?_⟩
  simp only [verificar_multiples_columnas]
  rcases hbp : buclePorColumnas df verbose cs [] with ⟨res, tr⟩
  rw [hbp] at he
  simp only at he
  subst he
  simp

def df6 : DataFrame := ⟨[("a", ⟨"int64", true, [.num 1]⟩)]⟩

/-- C6 witness: `validate_all(T, ["a", "missing_col"])` on a table with only
column `a` raises instead of returning any mapping. -/
theorem claim6_witness :
    ("missing_col" ∈ ["a", "missing_col"])
    ∧ "missing_col" ∉ df6.columns
    ∧ ∃ e, (verificar_multiples_columnas df6 (some ["a", "missing_col"])
        false).fst = Except.error e :=
  ⟨by decide, by decide,
   claim6_columna_faltante_aborta df6 ["a", "missing_col"] false "missing_col"
     (by decide) (by decide)⟩

/-- Inserting a fresh key into the dict appends it, keeping order. -/
theorem dictInsert_append (acc : List (String × Resultado)) (c : String)
    (r : Resultado) (h : c ∉ acc.map Prod.fst) :
    dictInsert acc c r = acc ++ [(c, r)] := by
  induction acc with
  | nil => rfl
  | cons p rest ih =>
    obtain ⟨k, v⟩ := p
    simp only [List.map_cons, List.mem_cons, not_or] at h
    have hk : (k == c) = false := by
      simp only [beq_eq_false_iff_ne, ne_eq]
      exact fun he => h.1 (he ▸ rfl)
    simp [dictInsert, hk, ih (by simpa using h.2)]

/-- When every requested column exists and the requests are distinct, the
batch loop returns the accumulated dict extended by one entry per request,
in request order. -/
theorem bucle_ok (df : DataFrame) (verbose : Bool) :
    ∀ (cs : List String) (acc : List (String × Resultado)), cs.Nodup →
      (∀ c ∈ cs, c ∈ df.columns) → (∀ c ∈ cs, c ∉ acc.map Prod.fst) →
      (buclePorColumnas df verbose cs acc).fst =
        Except.ok (acc ++ cs.map (fun c => (c, reporteColumna df c))) := by
  intro cs
  induction cs with
  | nil =>
    intro acc _ _ _
    simp [buclePorColumnas]
  | cons d rest ih =>
    intro acc hnd hall hfresh
    rw [bucle_fst]
    obtain ⟨col, hl⟩ := exists_leer_of_mem (hall d (List.mem_cons_self d rest))
    have h1 : (verificar_columna_numerica df d verbose).fst =
        Except.ok (reporteDe col) := by
      rw [verificar_eq_of_leer df d verbose col hl]
    rw [h1]
    dsimp only
    have hrc : reporteColumna df d = reporteDe col := by
      simp [reporteColumna, hl]
    rw [dictInsert_append acc d (reporteDe col)
      (hfresh d (List.mem_cons_self d rest))]
    rw [ih (acc ++ [(d, reporteDe col)]) (List.Nodup.of_cons hnd)
      (fun c hc => hall c (List.mem_cons_of_mem d hc)) ?_]
    · simp [hrc]
    · intro c hc
      simp only [List.map_append, List.mem_append, List.map_cons,
        List.map_nil, List.mem_singleton, not_or]
      refine ⟨hfresh c (List.mem_cons_of_mem d hc), ?_⟩
      have hd : d ∉ rest := (List.nodup_cons.mp hnd).1
      exact fun he => hd (he ▸ hc)

/-- C7: when all requested columns exist and are distinct, the batch
validator returns exactly one entry per requested column, in request order,
each entry being the single-column validator's report; with no column list
it validates all of the table's columns in table order. -/
theorem claim7_mapeo_completo (df : DataFrame) (cs : List String)
    (verbose : Bool) (hnd : cs.Nodup) (hall : ∀ c ∈ cs, c ∈ df.columns) :
    (verificar_multiples_columnas df (some cs) verbose).fst =
      Except.ok (cs.map (fun c => (c, reporteColumna df c)))
    ∧ (∀ c ∈ cs, (verificar_columna_numerica df c verbose).fst =
        Except.ok (reporteColumna df c))
    ∧ (verificar_multiples_columnas df none verbose).fst =
        (verificar_multiples_columnas df (some df.columns) verbose).fst := by
  refine ⟨?_, ?_, rfl⟩
  · have hb := bucle_ok df verbose cs [] hnd hall (by simp)
    simp only [verificar_multiples_columnas]
    rcases hbp : buclePorColumnas df verbose cs [] with ⟨res, tr⟩
    rw [hbp] at hb
    simp only at hb
    subst hb
    simp
  · intro c hc
    obtain ⟨col, hl⟩ := exists_leer_of_mem (hall c hc)
    rw [verificar_eq_of_leer df c verbose col hl]
    simp [reporteColumna, hl]

def df7 : DataFrame :=
  ⟨[("a", ⟨"int64", true, [.num 1]⟩), ("b", ⟨"object", false, [.str "x"]⟩)]⟩

/-- C7 witness: the batch result at a two-column table, one entry per
requested column in order, each the single-column report. -/
theorem claim7_witness :
    (verificar_multiples_columnas df7 (some ["a", "b"]) false).fst =
      Except.ok [("a", reporteColumna df7 "a"), ("b", reporteColumna df7 "b")]
    ∧ (∀ c ∈ ["a", "b"], (verificar_columna_numerica df7 c false).fst =
        Except.ok (reporteColumna df7 c))
    ∧ (verificar_multiples_columnas df7 none false).fst =
        (verificar_multiples_columnas df7 (some df7.columns) false).fst :=
  claim7_mapeo_completo df7 ["a", "b"] false (by decide) (by decide)

/-- C8: neither validator mutates the input table: the state-passing
embeddings return it unchanged, whether the call returns a report or an
error. -/
theorem claim8_tabla_inmutable (df : DataFrame) (c : String)
    (columnas : Option (List String)) (verbose : Bool) :
    (verificarColumnaEstado df c verbose).snd = df
    ∧ (verificarMultiplesEstado df columnas verbose).snd = df :=
  ⟨rfl, rfl⟩

/-- The Python-return part of the batch validator, as one equation. -/
theorem multiples_fst (df : DataFrame) (columnas : Option (List String))
    (verbose : Bool) :
    (verificar_multiples_columnas df columnas verbose).fst =
      (buclePorColumnas df verbose
        (match columnas with | none => df.columns | some cs => cs) []).fst := by
  simp only [verificar_multiples_columnas]
  rcases h : buclePorColumnas df verbose
      (match columnas with | none => df.columns | some cs => cs) [] with ⟨res, tr⟩
  cases res <;> simp

theorem bucle_fst_ignora_verbose (df : DataFrame) :
    ∀ (cs : List String) (acc : List (String × Resultado)),
      (buclePorColumnas df true cs acc).fst =
        (buclePorColumnas df false cs acc).fst := by
  intro cs
  induction cs with
  | nil => intro acc; rfl
  | cons d rest ih =>
    intro acc
    rw [bucle_fst, bucle_fst]
    have hv : (verificar_columna_numerica df d true).fst =
        (verificar_columna_numerica df d false).fst := by
      rw [verificar_fst, verificar_fst]
    rw [hv]
    rcases h : (verificar_columna_numerica df d false).fst with e | r
    · rfl
    · dsimp only
      exact ih _

/-- C9: the verbose flag changes only what is printed, never the returned
value — for the single-column validator and for the batch validator. -/
theorem claim9_verbose_solo_impresion (df : DataFrame) (c : String)
    (columnas : Option (List String)) :
    (verificar_columna_numerica df c true).fst =
      (verificar_columna_numerica df c false).fst
    ∧ (verificar_multiples_columnas df columnas true).fst =
      (verificar_multiples_columnas df columnas false).fst := by
  constructor
  · rw [verificar_fst, verificar_fst]
  · rw [multiples_fst, multiples_fst, bucle_fst_ignora_verbose]

theorem length_filter_enumFrom (p : Value → Bool) :
    ∀ (l : List Value) (n : Nat),
      ((List.enumFrom n l).filter (fun q => p q.2)).length = l.countP p := by
  intro l
  induction l with
  | nil => intro n; simp
  | cons v rest ih =>
    intro n
    rcases hv : p v with _ | _ <;>
      simp [List.enumFrom, List.filter_cons, hv, ih (n + 1), List.countP_cons]

theorem pairwise_fst_enumFrom (l : List Value) :
    ∀ n : Nat,
      List.Pairwise (fun a b : Nat × Value => a.1 < b.1) (List.enumFrom n l) := by
  induction l with
  | nil => intro n; simp
  | cons v rest ih =>
    intro n
    show List.Pairwise _ ((n, v) :: List.enumFrom (n + 1) rest)
    refine List.pairwise_cons.mpr ⟨?_, ih (n + 1)⟩
    intro b hb
    obtain ⟨i, x⟩ := b
    have := (List.mk_mem_enumFrom_iff_le_and_getElem?_sub.mp hb).1
    omega

/-- C10: in every returned report the non-numeric value and index lists have
equal length and the indices are strictly ascending (so the spec's (index,
value) pairs are recoverable by zipping), and the null-index list's length
equals the null count. -/
theorem claim10_listas_paralelas (df : DataFrame) (c : String)
    (verbose : Bool) (col : Column) (r : Resultado)
    (hcol : df.leer c = some col)
    (hr : (verificar_columna_numerica df c verbose).fst = Except.ok r) :
    r.valores_no_numericos.length = r.indices_no_numericos.length
    ∧ List.Pairwise (· < ·) r.indices_no_numericos
    ∧ r.indices_nulos.length = r.valores_nulos := by
  rw [verificar_eq_of_leer df c verbose col hcol] at hr
  simp only [Except.ok.injEq] at hr
  subst hr
  have hnul : (indicesNulos col.cells).length = cuentaNulos col.cells := by
    simp only [indicesNulos, List.length_map]
    exact length_filter_enumFrom Value.esNulo col.cells 0
  rcases hd : col.dtypeNumerico with _ | _
  · rw [reporteDe_dtype_no_numerico col hd]
    refine ⟨?_, ?_, hnul⟩
    · rw [escanear_eq]
      simp
    · rw [escanear_eq]
      dsimp only
      refine List.pairwise_map.mpr ?_
      exact (pairwise_fst_enumFrom col.cells 0).filter noConvertible
  · rw [reporteDe_dtype_numerico col hd]
    exact ⟨rfl, by simp, hnul⟩

def df10 : DataFrame :=
  ⟨[("a", ⟨"object", false,
    [.null, .str "x", .str "2", .other "list" "[1]"]⟩)]⟩

def col10 : Column :=
  ⟨"object", false, [.null, .str "x", .str "2", .other "list" "[1]"]⟩

def r10 : Resultado :=
  { es_numerica := false
    tipo_dato := "object"
    valores_no_numericos := [.str "x", .other "list" "[1]"]
    cantidad_no_numericos := 2
    indices_no_numericos := [1, 3]
    total_valores := 4
    valores_nulos := 1
    indices_nulos := [0] }

/-- C10 witness: the parallel-list invariants at a column with a null, two
failing cells and one convertible text cell. -/
theorem claim10_witness :
    r10.valores_no_numericos.length = r10.indices_no_numericos.length
    ∧ List.Pairwise (· < ·) r10.indices_no_numericos
    ∧ r10.indices_nulos.length = r10.valores_nulos :=
  claim10_listas_paralelas df10 "a" false col10 r10 rfl rfl

end Preprocessing
